import Mathlib

/-!
Shallow embedding of the moderation and interaction layer of the fanwork-sharing
application: the storage layer `src/server/storage.ts` (the moderation-capable,
numeric-user-id variant, which the spec follows), the auth middleware
`src/server/auth.ts`, and the drizzle schema recorded in `RENDER_DEPLOYMENT.md`.

The relational store is modelled as lists of rows. `db.select().where(c)` is
`List.filter` / `List.find?` (drizzle destructures the first row), `db.delete().where(c)`
keeps the rows failing `c`, `db.update().set(u).where(c)` maps `u` over the rows
satisfying `c`, `db.insert` appends a row, and `count(*)` with a `where` clause is the
length of the corresponding filter. Serial row ids and `createdAt` defaults assigned by
the store for `likes` and `bookmarks` rows are elided: no code path under the server
sources reads them. Timestamps are `Nat` ticks; SQL `ORDER BY x DESC` is a sort along
the descending key.
-/

/-- A row of the `users` table (schema in `RENDER_DEPLOYMENT.md`). `isActive` appears in
the email/password schema variant consumed by `auth.ts` and `routes.ts`. The source
passes user ids sometimes as `number` and sometimes as `string`; both denote the serial
primary key, modelled as `Nat`. -/
structure User where
  id : Nat
  email : String
  username : String
  passwordHash : String
  firstName : Option String
  lastName : Option String
  role : String
  isActive : Bool
  isBanned : Bool
  banReason : Option String
  bannedBy : Option String
  bannedAt : Option Nat
  ageVerified : Bool
  createdAt : Nat
  updatedAt : Nat
deriving Repr, DecidableEq

/-- A row of the `fanworks` table. -/
structure Fanwork where
  id : Nat
  title : String
  description : Option String
  type : String
  contentUrl : Option String
  textContent : Option String
  rating : String
  authorId : Nat
  isHidden : Bool
  moderationReason : Option String
  moderatedAt : Option Nat
  moderatedBy : Option Nat
  contentType : String
  isReported : Bool
  reportCount : Nat
  createdAt : Nat
  updatedAt : Nat
deriving Repr, DecidableEq

/-- A row of the `tags` table. -/
structure Tag where
  id : Nat
  name : String
  createdAt : Nat
deriving Repr, DecidableEq

/-- A row of the `fanwork_tags` junction table (serial id elided). -/
structure FanworkTag where
  fanworkId : Nat
  tagId : Nat
deriving Repr, DecidableEq

/-- A row of the `likes` table (serial id and `createdAt` elided: the code inserts
only the pair and every query touches only the pair). -/
structure Like where
  userId : Nat
  fanworkId : Nat
deriving Repr, DecidableEq

/-- A row of the `bookmarks` table (serial id and `createdAt` elided). -/
structure Bookmark where
  userId : Nat
  fanworkId : Nat
deriving Repr, DecidableEq

/-- A row of the `comments` table. -/
structure Comment where
  id : Nat
  content : String
  userId : Nat
  fanworkId : Nat
  createdAt : Nat
deriving Repr, DecidableEq

/-- A row of the `reports` table. -/
structure Report where
  id : Nat
  reporterId : Nat
  fanworkId : Option Nat
  commentId : Option Nat
  userId : Option Nat
  reason : String
  description : Option String
  status : String
  reviewedBy : Option Nat
  reviewedAt : Option Nat
  moderationAction : Option String
  createdAt : Nat
deriving Repr, DecidableEq

/-- The relational store: one list of rows per table. -/
structure State where
  users : List User
  fanworks : List Fanwork
  tags : List Tag
  fanworkTags : List FanworkTag
  likes : List Like
  comments : List Comment
  bookmarks : List Bookmark
  reports : List Report
deriving Repr, DecidableEq

/-- The matcher of the `(userId, fanworkId)` pair used by every like query. -/
def likeMatches (userId fanworkId : Nat) (l : Like) : Bool :=
  l.userId == userId && l.fanworkId == fanworkId

/-- The matcher of the `(userId, fanworkId)` pair used by every bookmark query. -/
def bookmarkMatches (userId fanworkId : Nat) (b : Bookmark) : Bool :=
  b.userId == userId && b.fanworkId == fanworkId

/-- `DatabaseStorage.toggleLike` (storage.ts): select the `(userId, fanworkId)` row;
if present delete it and return `false`, otherwise insert it and return `true`.
The returned pair is the result boolean and the updated store. -/
def toggleLike (st : State) (userId fanworkId : Nat) : Bool × State :=
  match st.likes.find? (likeMatches userId fanworkId) with
  | some _ =>
      (false, { st with likes := st.likes.filter (fun l => !likeMatches userId fanworkId l) })
  | none =>
      (true, { st with likes := st.likes ++ [{ userId := userId, fanworkId := fanworkId }] })

/-- `DatabaseStorage.toggleBookmark` (storage.ts): same algorithm on `bookmarks`. -/
def toggleBookmark (st : State) (userId fanworkId : Nat) : Bool × State :=
  match st.bookmarks.find? (bookmarkMatches userId fanworkId) with
  | some _ =>
      (false, { st with bookmarks := st.bookmarks.filter (fun b => !bookmarkMatches userId fanworkId b) })
  | none =>
      (true, { st with bookmarks := st.bookmarks ++ [{ userId := userId, fanworkId := fanworkId }] })

/-- `DatabaseStorage.isLiked` (storage.ts): the row exists. -/
def isLiked (st : State) (userId fanworkId : Nat) : Bool :=
  (st.likes.find? (likeMatches userId fanworkId)).isSome

/-- `DatabaseStorage.isBookmarked` (storage.ts): the row exists. -/
def isBookmarked (st : State) (userId fanworkId : Nat) : Bool :=
  (st.bookmarks.find? (bookmarkMatches userId fanworkId)).isSome

/-- Iterated `toggleLike` on the same pair (the state reached after `n` calls). -/
def iterToggleLike (u i : Nat) : Nat → State → State
  | 0, st => st
  | n + 1, st => iterToggleLike u i n (toggleLike st u i).2

theorem toggleLike_fst (st : State) (u i : Nat) :
    (toggleLike st u i).1 = !(isLiked st u i) := by
  unfold toggleLike isLiked
  cases st.likes.find? (likeMatches u i) <;> simp

theorem toggleBookmark_fst (st : State) (u i : Nat) :
    (toggleBookmark st u i).1 = !(isBookmarked st u i) := by
  unfold toggleBookmark isBookmarked
  cases st.bookmarks.find? (bookmarkMatches u i) <;> simp

theorem isLiked_toggleLike (st : State) (u i : Nat) :
    isLiked (toggleLike st u i).2 u i = !(isLiked st u i) := by
  unfold toggleLike isLiked
  cases h : st.likes.find? (likeMatches u i) with
  | some l =>
      simp only [Option.isSome_some, Bool.not_true]
      have hnone : (st.likes.filter (fun l => !likeMatches u i l)).find? (likeMatches u i) = none := by
        refine List.find?_eq_none.mpr ?_
        intro x hx
        rcases List.mem_filter.mp hx with ⟨_, hpx⟩
        simp only [Bool.not_eq_eq_eq_not, Bool.not_true] at hpx
        simp [hpx]
      rw [hnone]
      rfl
  | none =>
      simp only [Option.isSome_none, Bool.not_false]
      rw [Option.isSome_iff_exists]
      have : st.likes.find? (likeMatches u i) = none := h
      refine ⟨⟨u, i⟩, ?_⟩
      rw [List.find?_append, this]
      simp [likeMatches]

theorem isBookmarked_toggleBookmark (st : State) (u i : Nat) :
    isBookmarked (toggleBookmark st u i).2 u i = !(isBookmarked st u i) := by
  unfold toggleBookmark isBookmarked
  cases h : st.bookmarks.find? (bookmarkMatches u i) with
  | some l =>
      simp only [Option.isSome_some, Bool.not_true]
      have hnone : (st.bookmarks.filter (fun b => !bookmarkMatches u i b)).find? (bookmarkMatches u i) = none := by
        refine List.find?_eq_none.mpr ?_
        intro x hx
        rcases List.mem_filter.mp hx with ⟨_, hpx⟩
        simp only [Bool.not_eq_eq_eq_not, Bool.not_true] at hpx
        simp [hpx]
      rw [hnone]
      rfl
  | none =>
      simp only [Option.isSome_none, Bool.not_false]
      rw [Option.isSome_iff_exists]
      have : st.bookmarks.find? (bookmarkMatches u i) = none := h
      refine ⟨⟨u, i⟩, ?_⟩
      rw [List.find?_append, this]
      simp [bookmarkMatches]

theorem isLiked_iterToggleLike (u i : Nat) (n : Nat) (st : State) :
    isLiked (iterToggleLike u i n st) u i = ((isLiked st u i).xor (decide (n % 2 = 1))) := by
  induction n generalizing st with
  | zero => simp [iterToggleLike]
  | succ n ih =>
      rw [iterToggleLike, ih, isLiked_toggleLike]
      rcases Nat.mod_two_eq_zero_or_one n with h | h <;>
        simp [h, Nat.add_mod]

/-- The store with every table empty. -/
def emptyState : State :=
  { users := [], fanworks := [], tags := [], fanworkTags := [],
    likes := [], comments := [], bookmarks := [], reports := [] }

/-- C1: the toggle operations check whether the `(U, I)` row exists in the corresponding
relation table: present, they delete it and return `false`; absent, they insert it and
return `true`. Consequently two successive toggles return opposite booleans, and starting
from no row, after an odd number of calls the row exists and after an even number it
does not. -/
theorem C1_toggle_flip_semantics (st : State) (u i : Nat) :
    (isLiked st u i = true →
        toggleLike st u i =
          (false, { st with likes := st.likes.filter (fun l => !likeMatches u i l) }))
  ∧ (isLiked st u i = false →
        toggleLike st u i =
          (true, { st with likes := st.likes ++ [{ userId := u, fanworkId := i }] }))
  ∧ (isBookmarked st u i = true →
        toggleBookmark st u i =
          (false, { st with bookmarks := st.bookmarks.filter (fun b => !bookmarkMatches u i b) }))
  ∧ (isBookmarked st u i = false →
        toggleBookmark st u i =
          (true, { st with bookmarks := st.bookmarks ++ [{ userId := u, fanworkId := i }] }))
  ∧ (toggleLike (toggleLike st u i).2 u i).1 = !(toggleLike st u i).1
  ∧ (toggleBookmark (toggleBookmark st u i).2 u i).1 = !(toggleBookmark st u i).1
  ∧ (∀ n, isLiked st u i = false →
        isLiked (iterToggleLike u i n st) u i = decide (n % 2 = 1)) := by
  refine ⟨?_, ?_, ?_, ?_, ?_, ?_, ?_⟩
  · intro h
    unfold isLiked at h
    unfold toggleLike
    cases hf : st.likes.find? (likeMatches u i) with
    | some l => rfl
    | none => rw [hf] at h; simp at h
  · intro h
    unfold isLiked at h
    unfold toggleLike
    cases hf : st.likes.find? (likeMatches u i) with
    | some l => rw [hf] at h; simp at h
    | none => rfl
  · intro h
    unfold isBookmarked at h
    unfold toggleBookmark
    cases hf : st.bookmarks.find? (bookmarkMatches u i) with
    | some b => rfl
    | none => rw [hf] at h; simp at h
  · intro h
    unfold isBookmarked at h
    unfold toggleBookmark
    cases hf : st.bookmarks.find? (bookmarkMatches u i) with
    | some b => rw [hf] at h; simp at h
    | none => rfl
  · rw [toggleLike_fst, toggleLike_fst, isLiked_toggleLike]
  · rw [toggleBookmark_fst, toggleBookmark_fst, isBookmarked_toggleBookmark]
  · intro n h
    rw [isLiked_iterToggleLike, h, Bool.false_xor]

/-- Witness for C1 at a concrete input: from the empty store a first toggle inserts the
row and returns `true`, and after three calls the row exists. -/
theorem C1_toggle_flip_semantics_witness :
    toggleLike emptyState 1 2 =
      (true, { emptyState with likes := [{ userId := 1, fanworkId := 2 }] })
  ∧ isLiked (iterToggleLike 1 2 3 emptyState) 1 2 = true
  ∧ isLiked (iterToggleLike 1 2 4 emptyState) 1 2 = false := by
  have h := C1_toggle_flip_semantics emptyState 1 2
  refine ⟨?_, ?_, ?_⟩
  · have := h.2.1 (by decide)
    simpa [emptyState] using this
  · have := h.2.2.2.2.2.2 3 (by decide)
    simpa using this
  · have := h.2.2.2.2.2.2 4 (by decide)
    simpa using this

/-- The number of like rows for the pair `(u, i)`. -/
def pairLikeCount (st : State) (u i : Nat) : Nat :=
  st.likes.countP (likeMatches u i)

/-- The number of bookmark rows for the pair `(u, i)`. -/
def pairBookmarkCount (st : State) (u i : Nat) : Nat :=
  st.bookmarks.countP (bookmarkMatches u i)

/-- The uniqueness invariant of the spec: at most one like row and at most one bookmark
row per `(user, item)` pair. -/
def UniquePerPair (st : State) : Prop :=
  ∀ u i, pairLikeCount st u i ≤ 1 ∧ pairBookmarkCount st u i ≤ 1

/-- One toggle request, as routed to `toggleLike` or `toggleBookmark`. -/
inductive ToggleOp where
  | like (u i : Nat)
  | bookmark (u i : Nat)
deriving Repr, DecidableEq

/-- Run one toggle operation for its state effect. -/
def applyToggle (st : State) : ToggleOp → State
  | .like u i => (toggleLike st u i).2
  | .bookmark u i => (toggleBookmark st u i).2

/-- Run a sequence of toggle operations. -/
def applyToggles (st : State) (ops : List ToggleOp) : State :=
  ops.foldl applyToggle st

theorem pairLikeCount_toggleLike_le (st : State) (u i u2 i2 : Nat)
    (h : pairLikeCount st u2 i2 ≤ 1) :
    pairLikeCount (toggleLike st u i).2 u2 i2 ≤ 1 := by
  unfold toggleLike
  cases hf : st.likes.find? (likeMatches u i) with
  | some l =>
      exact le_trans (List.Sublist.countP_le _ (List.filter_sublist _)) h
  | none =>
      show List.countP _ (st.likes ++ [_]) ≤ 1
      rw [List.countP_append]
      by_cases hm : likeMatches u2 i2 { userId := u, fanworkId := i } = true
      · have hui : u = u2 ∧ i = i2 := by
          simpa [likeMatches] using hm
        have hz : List.countP (likeMatches u2 i2) st.likes = 0 := by
          rw [List.countP_eq_zero]
          intro a ha
          have := List.find?_eq_none.mp hf a ha
          rw [← hui.1, ← hui.2]
          exact this
        simp [hz, hm]
      · have : List.countP (likeMatches u2 i2) [({ userId := u, fanworkId := i } : Like)] = 0 := by
          rw [List.countP_eq_zero]
          intro a ha
          simp only [List.mem_singleton] at ha
          rw [ha]
          exact hm
        rw [this]
        exact h

theorem pairBookmarkCount_toggleBookmark_le (st : State) (u i u2 i2 : Nat)
    (h : pairBookmarkCount st u2 i2 ≤ 1) :
    pairBookmarkCount (toggleBookmark st u i).2 u2 i2 ≤ 1 := by
  unfold toggleBookmark
  cases hf : st.bookmarks.find? (bookmarkMatches u i) with
  | some b =>
      exact le_trans (List.Sublist.countP_le _ (List.filter_sublist _)) h
  | none =>
      show List.countP _ (st.bookmarks ++ [_]) ≤ 1
      rw [List.countP_append]
      by_cases hm : bookmarkMatches u2 i2 { userId := u, fanworkId := i } = true
      · have hui : u = u2 ∧ i = i2 := by
          simpa [bookmarkMatches] using hm
        have hz : List.countP (bookmarkMatches u2 i2) st.bookmarks = 0 := by
          rw [List.countP_eq_zero]
          intro a ha
          have := List.find?_eq_none.mp hf a ha
          rw [← hui.1, ← hui.2]
          exact this
        simp [hz, hm]
      · have : List.countP (bookmarkMatches u2 i2) [({ userId := u, fanworkId := i } : Bookmark)] = 0 := by
          rw [List.countP_eq_zero]
          intro a ha
          simp only [List.mem_singleton] at ha
          rw [ha]
          exact hm
        rw [this]
        exact h

theorem uniquePerPair_applyToggle (st : State) (op : ToggleOp)
    (h : UniquePerPair st) : UniquePerPair (applyToggle st op) := by
  intro u2 i2
  cases op with
  | like u i =>
      refine ⟨pairLikeCount_toggleLike_le st u i u2 i2 (h u2 i2).1, ?_⟩
      have : (applyToggle st (.like u i)).bookmarks = st.bookmarks := by
        simp only [applyToggle]
        unfold toggleLike
        cases st.likes.find? (likeMatches u i) <;> rfl
      unfold pairBookmarkCount
      rw [this]
      exact (h u2 i2).2
  | bookmark u i =>
      refine ⟨?_, pairBookmarkCount_toggleBookmark_le st u i u2 i2 (h u2 i2).2⟩
      have : (applyToggle st (.bookmark u i)).likes = st.likes := by
        simp only [applyToggle]
        unfold toggleBookmark
        cases st.bookmarks.find? (bookmarkMatches u i) <;> rfl
      unfold pairLikeCount
      rw [this]
      exact (h u2 i2).1

/-- C5: every toggle operation preserves the per-pair uniqueness invariant, so after any
sequence of `toggleLike` / `toggleBookmark` operations there is at most one like row and
at most one bookmark row for each `(user, item)` pair. -/
theorem C5_toggle_preserves_uniqueness (st : State) (ops : List ToggleOp)
    (h : UniquePerPair st) : UniquePerPair (applyToggles st ops) := by
  induction ops generalizing st with
  | nil => exact h
  | cons op rest ih =>
      exact ih (applyToggle st op) (uniquePerPair_applyToggle st op h)

/-- Witness for C5 at a concrete input: three repeated like toggles and a bookmark toggle
from the empty store leave at most one row for the pair `(1, 2)`. -/
theorem C5_toggle_preserves_uniqueness_witness :
    pairLikeCount
        (applyToggles emptyState [ToggleOp.like 1 2, ToggleOp.like 1 2, ToggleOp.like 1 2]) 1 2 ≤ 1
  ∧ pairBookmarkCount (applyToggles emptyState [ToggleOp.bookmark 1 2]) 1 2 ≤ 1 := by
  have hinv : UniquePerPair emptyState := by
    intro u i
    exact ⟨by simp [pairLikeCount, emptyState], by simp [pairBookmarkCount, emptyState]⟩
  exact ⟨(C5_toggle_preserves_uniqueness emptyState
            [ToggleOp.like 1 2, ToggleOp.like 1 2, ToggleOp.like 1 2] hinv 1 2).1,
         (C5_toggle_preserves_uniqueness emptyState [ToggleOp.bookmark 1 2] hinv 1 2).2⟩

/-- `COUNT(*) ... WHERE "fanworkId" = i` on a list of likes. -/
def likesCountFor (rows : List Like) (fanworkId : Nat) : Nat :=
  (rows.filter (fun l => l.fanworkId == fanworkId)).length

/-- `COUNT(*) ... WHERE "fanworkId" = i` on a list of comments. -/
def commentsCountFor (rows : List Comment) (fanworkId : Nat) : Nat :=
  (rows.filter (fun c => c.fanworkId == fanworkId)).length

/-- `COUNT(*) ... WHERE "fanworkId" = i` on a list of bookmarks. -/
def bookmarksCountFor (rows : List Bookmark) (fanworkId : Nat) : Nat :=
  (rows.filter (fun b => b.fanworkId == fanworkId)).length

/-- The record returned by `getFanworkCounts`. -/
structure FanworkCounts where
  likes : Nat
  comments : Nat
  bookmarks : Nat
deriving Repr, DecidableEq

/-- `DatabaseStorage.getFanworkCounts` (storage.ts): three `count(*)` queries over the
relation tables filtered by `fanworkId`, assembled into a record. -/
def getFanworkCounts (st : State) (fanworkId : Nat) : FanworkCounts :=
  { likes := likesCountFor st.likes fanworkId
  , comments := commentsCountFor st.comments fanworkId
  , bookmarks := bookmarksCountFor st.bookmarks fanworkId }

/-- The filter object accepted by `getFanworks`. In the source `authorId` is a string
run through `parseInt` before comparison with the numeric column; the parsed number is
modelled directly. -/
structure FanworkFilters where
  type : Option (List String) := none
  rating : Option (List String) := none
  tags : Option (List String) := none
  search : Option String := none
  authorId : Option Nat := none
  limit : Option Nat := none
  offset : Option Nat := none
deriving Repr, DecidableEq

/-- `pat` matches at the head of `hay` (character-wise). -/
def leadMatch : List Char → List Char → Bool
  | _, [] => true
  | [], _ :: _ => false
  | h :: t, p :: q => h == p && leadMatch t q

/-- `pat` occurs as a contiguous run somewhere in `hay`. -/
def hasSub (pat : List Char) : List Char → Bool
  | [] => leadMatch [] pat
  | c :: t => leadMatch (c :: t) pat || hasSub pat t

/-- SQL `hay ILIKE percent-pat-percent`: case-insensitive (per-character lowering) substring test. -/
def sqlIlikeContains (hay pat : String) : Bool :=
  hasSub (pat.data.map Char.toLower) (hay.data.map Char.toLower)

/-- The same ILIKE test on a nullable column: NULL never matches. -/
def sqlIlikeContainsOpt (hay : Option String) (pat : String) : Bool :=
  match hay with
  | some h => sqlIlikeContains h pat
  | none => false

/-- The WHERE clause built by `getFanworks` (storage.ts, moderation-capable variant).
Conditions are pushed for `type`, `rating`, `search` and `authorId` under JS-truthiness
guards (a condition is pushed only for a non-empty list, a non-empty search string, a
present author id); the `tags` filter is read by no branch. Drizzle joins the pushed
conditions with `and`, and the raw search fragment
`title ILIKE pattern OR description ILIKE pattern` carries no parentheses, so under SQL
operator precedence (`AND` binds tighter than `OR`) the generated clause parses as
`(type AND rating AND title-match) OR (description-match AND author)` whenever the
search condition is present. -/
def fanworkWhere (f : FanworkFilters) (w : Fanwork) : Bool :=
  let typeOk := match f.type with
    | some ts => ts.isEmpty || ts.contains w.type
    | none => true
  let ratingOk := match f.rating with
    | some rs => rs.isEmpty || rs.contains w.rating
    | none => true
  let authorOk := match f.authorId with
    | some a => w.authorId == a
    | none => true
  match f.search with
  | some s =>
      if s == "" then typeOk && ratingOk && authorOk
      else (typeOk && ratingOk && sqlIlikeContains w.title s)
           || (sqlIlikeContainsOpt w.description s && authorOk)
  | none => typeOk && ratingOk && authorOk

/-- `ORDER BY "createdAt" DESC`: the comparison the sort is taken along. -/
def byCreatedAtDesc (a b : Fanwork) : Prop :=
  b.createdAt ≤ a.createdAt

instance : DecidableRel byCreatedAtDesc :=
  fun a b => Nat.decLe b.createdAt a.createdAt

instance : IsTotal Fanwork byCreatedAtDesc :=
  ⟨fun a b => Nat.le_total b.createdAt a.createdAt⟩

instance : IsTrans Fanwork byCreatedAtDesc :=
  ⟨fun _ _ _ hab hbc => Nat.le_trans hbc hab⟩

/-- The effective LIMIT of `getFanworks`: the JS expression `filters?.limit || 20`
falls back to 20 when the limit is absent or zero (0 is falsy). -/
def fanworksLimit (f : FanworkFilters) : Nat :=
  match f.limit with
  | some n => if n == 0 then 20 else n
  | none => 20

/-- The effective OFFSET of `getFanworks`: `filters?.offset || 0`. -/
def fanworksOffset (f : FanworkFilters) : Nat :=
  match f.offset with
  | some n => n
  | none => 0

/-- `DatabaseStorage.getFanworks` (storage.ts, moderation-capable variant): filter by
the WHERE clause, order by creation time descending, then apply OFFSET and LIMIT.
No condition ever consults `isHidden`, the caller, or the tag tables. -/
def getFanworks (st : State) (f : FanworkFilters) : List Fanwork :=
  ((List.insertionSort byCreatedAtDesc (st.fanworks.filter (fanworkWhere f))).drop
      (fanworksOffset f)).take (fanworksLimit f)

/-- `DatabaseStorage.getFanwork` (storage.ts): first row with the given id. -/
def getFanwork (st : State) (id : Nat) : Option Fanwork :=
  st.fanworks.find? (fun w => w.id == id)

/-- `DatabaseStorage.deleteComment` (storage.ts): delete the rows whose id and authoring
`userId` both match; no error is raised when nothing matches. -/
def deleteComment (st : State) (id userId : Nat) : State :=
  { st with comments := st.comments.filter (fun c => !(c.id == id && c.userId == userId)) }

/-- A `Partial<Report>` as sent by the admin panel and stamped by the review flow:
present fields overwrite the row. -/
structure ReportPatch where
  status : Option String := none
  reviewedBy : Option Nat := none
  reviewedAt : Option Nat := none
  moderationAction : Option String := none
deriving Repr, DecidableEq

/-- Apply a `Partial<Report>` to a row: each present field overwrites. -/
def applyReportPatch (p : ReportPatch) (r : Report) : Report :=
  { r with
    status := p.status.getD r.status
    , reviewedBy := match p.reviewedBy with | some v => some v | none => r.reviewedBy
    , reviewedAt := match p.reviewedAt with | some v => some v | none => r.reviewedAt
    , moderationAction := match p.moderationAction with | some v => some v | none => r.moderationAction }

/-- `DatabaseStorage.updateReport` (storage.ts): unconditional
`UPDATE reports SET data WHERE id = id RETURNING`; the first returned row and the
updated store. The storage method itself checks no current status. -/
def updateReport (st : State) (id : Nat) (data : ReportPatch) : Option Report × State :=
  let rows := st.reports.map (fun r => if r.id == id then applyReportPatch data r else r)
  (rows.find? (fun r => r.id == id), { st with reports := rows })

/-- The error kinds of the moderation flow. -/
inductive StoreError where
  | notFound
  | invalidTransition
deriving Repr, DecidableEq

/-- Modelled from the spec: the admin report-review route handler
(`PATCH /api/admin/reports/:id`) is not among the given source files; only its client
caller (`client/src/pages/admin.tsx`) and `DatabaseStorage.updateReport` are. Per the
spec, the review requires the report to exist (`NotFound` otherwise), succeeds only when
its current status is `pending` (`InvalidTransition` otherwise, leaving the store
untouched), and on success stamps `reviewedBy`/`reviewedAt` and persists
`moderationAction` through the real `updateReport`. -/
def reviewReport (st : State) (reportId reviewerId : Nat) (newStatus action : String)
    (now : Nat) : Except StoreError (Option Report) × State :=
  match st.reports.find? (fun r => r.id == reportId) with
  | none => (.error .notFound, st)
  | some r =>
      if r.status == "pending" then
        let res := updateReport st reportId
          { status := some newStatus, reviewedBy := some reviewerId
            , reviewedAt := some now, moderationAction := some action }
        (.ok res.1, res.2)
      else (.error .invalidTransition, st)

/-- The ban metadata of `DatabaseStorage.banUser`. -/
structure BanData where
  banReason : String
  bannedBy : String
  bannedAt : Nat
deriving Repr, DecidableEq

/-- The row update of `banUser`: set the four ban fields on the matching row. -/
def banRow (userId : Nat) (data : BanData) (u : User) : User :=
  if u.id == userId then
    { u with
        isBanned := true
        banReason := some data.banReason
        bannedBy := some data.bannedBy
        bannedAt := some data.bannedAt }
  else u

/-- `DatabaseStorage.banUser` (storage.ts): set the four ban fields on the row with the
given user id; no other table is touched. Returns the first updated row and the store. -/
def banUser (st : State) (userId : Nat) (data : BanData) : Option User × State :=
  let rows := st.users.map (banRow userId data)
  (rows.find? (fun u => u.id == userId), { st with users := rows })

/-- The moderation metadata of `DatabaseStorage.hideFanwork`. -/
structure HideData where
  moderationReason : String
  moderatedBy : Nat
  moderatedAt : Nat
deriving Repr, DecidableEq

/-- `DatabaseStorage.hideFanwork` (storage.ts): set `isHidden` and the moderation
metadata on the row with the given id. -/
def hideFanwork (st : State) (fanworkId : Nat) (data : HideData) : Option Fanwork × State :=
  let rows := st.fanworks.map (fun w =>
    if w.id == fanworkId then
      { w with
          isHidden := true
          moderationReason := some data.moderationReason
          moderatedBy := some data.moderatedBy
          moderatedAt := some data.moderatedAt }
    else w)
  (rows.find? (fun w => w.id == fanworkId), { st with fanworks := rows })

/-- `DatabaseStorage.getUserById` (storage.ts): first row with the given id. -/
def getUserById (st : State) (id : Nat) : Option User :=
  st.users.find? (fun u => u.id == id)

/-- The outcome of an auth middleware: pass the request through with the resolved
identity, or stop with a 401/403 response. -/
inductive AuthResult where
  | ok (userId : Nat) (email username : String)
  | unauthorized (message : String)
  | forbidden (message : String)
deriving Repr, DecidableEq

/-- `requireModerator` (auth.ts): token presence and verification are abstracted as
`cred : Option Nat`, the decoded user id (`none` covers both a missing and an invalid
bearer token, each a 401 in the source). The checks run in source order: credential,
then existence/activity, then ban, then role. -/
def requireModerator (st : State) (cred : Option Nat) : AuthResult :=
  match cred with
  | none => .unauthorized "Invalid or expired token"
  | some uid =>
      match getUserById st uid with
      | none => .unauthorized "User not found or inactive"
      | some u =>
          if !u.isActive then .unauthorized "User not found or inactive"
          else if u.isBanned then .forbidden "Account banned"
          else if u.role != "moderator" && u.role != "admin" then
            .forbidden "Moderator access required"
          else .ok u.id u.email u.username

/-- `requireAdmin` (auth.ts): same chain with the admin role check. -/
def requireAdmin (st : State) (cred : Option Nat) : AuthResult :=
  match cred with
  | none => .unauthorized "Invalid or expired token"
  | some uid =>
      match getUserById st uid with
      | none => .unauthorized "User not found or inactive"
      | some u =>
          if !u.isActive then .unauthorized "User not found or inactive"
          else if u.isBanned then .forbidden "Account banned"
          else if u.role != "admin" then .forbidden "Admin access required"
          else .ok u.id u.email u.username

/-- `requireAgeVerification` (auth.ts): same chain with the age-verification check. -/
def requireAgeVerification (st : State) (cred : Option Nat) : AuthResult :=
  match cred with
  | none => .unauthorized "Invalid or expired token"
  | some uid =>
      match getUserById st uid with
      | none => .unauthorized "User not found or inactive"
      | some u =>
          if !u.isActive then .unauthorized "User not found or inactive"
          else if u.isBanned then .forbidden "Account banned"
          else if !u.ageVerified then
            .forbidden "Age verification required for 18+ content"
          else .ok u.id u.email u.username

/-- C2: for a fanwork with N like rows, M comment rows and K bookmark rows,
`getFanworkCounts` returns exactly these three counts, and the result depends only on
the three relation tables (no cached or denormalized counter is consulted). -/
theorem C2_counts_from_relation_tables (st : State) (i N M K : Nat)
    (hN : likesCountFor st.likes i = N)
    (hM : commentsCountFor st.comments i = M)
    (hK : bookmarksCountFor st.bookmarks i = K) :
    getFanworkCounts st i = { likes := N, comments := M, bookmarks := K }
  ∧ (∀ st2 : State, st2.likes = st.likes → st2.comments = st.comments →
      st2.bookmarks = st.bookmarks → getFanworkCounts st2 i = getFanworkCounts st i) := by
  constructor
  · unfold getFanworkCounts
    rw [hN, hM, hK]
  · intro st2 h1 h2 h3
    unfold getFanworkCounts
    rw [h1, h2, h3]

/-- A store with one like row and two bookmark rows for fanwork 9, for the C2 witness. -/
def countsState : State :=
  { emptyState with
      likes := [{ userId := 4, fanworkId := 9 }]
      bookmarks := [{ userId := 4, fanworkId := 9 }, { userId := 5, fanworkId := 9 }] }

/-- Witness for C2 at a concrete input: one like row, no comment row and two bookmark
rows for fanwork 9 yield the counts record (1, 0, 2). -/
theorem C2_counts_from_relation_tables_witness :
    getFanworkCounts countsState 9 = { likes := 1, comments := 0, bookmarks := 2 } :=
  (C2_counts_from_relation_tables countsState 9 1 0 2 (by decide) (by decide) (by decide)).1

/-- C10: `deleteComment` conditions the deletion on the caller being the authoring user.
When no comment with the given id is authored by the caller the call completes and the
comments table is unchanged; the row is removed exactly when the caller authored it,
and rows with other ids are never touched. -/
theorem C10_deleteComment_author_scoped (st : State) (cid u : Nat) :
    ((∀ c ∈ st.comments, c.id = cid → c.userId ≠ u) → deleteComment st cid u = st)
  ∧ (∀ c ∈ st.comments, c.userId = u → c.id = cid →
      c ∉ (deleteComment st cid u).comments)
  ∧ (∀ c ∈ st.comments, c.id ≠ cid → c ∈ (deleteComment st cid u).comments) := by
  refine ⟨?_, ?_, ?_⟩
  · intro h
    unfold deleteComment
    have hsame : st.comments.filter (fun c => !(c.id == cid && c.userId == u)) = st.comments := by
      refine List.filter_eq_self.mpr ?_
      intro a ha
      by_cases hid : a.id = cid
      · have := h a ha hid
        simp [this]
      · simp [hid]
    rw [hsame]
  · intro c hc hu hid hmem
    have := (List.mem_filter.mp hmem).2
    simp [hid, hu] at this
  · intro c hc hid
    refine List.mem_filter.mpr ⟨hc, ?_⟩
    simp [hid]

/-- A store with one comment (id 1, authored by user 7), for the C10 witness. -/
def commentState : State :=
  { emptyState with
      comments := [{ id := 1, content := "hi", userId := 7, fanworkId := 3, createdAt := 0 }] }

/-- Witness for C10 at a concrete input: comment 1 is authored by user 7, so a deletion
requested by user 5 leaves the store unchanged. -/
theorem C10_deleteComment_author_scoped_witness :
    deleteComment commentState 1 5 = commentState :=
  (C10_deleteComment_author_scoped commentState 1 5).1 (by decide)

/-- C8: `banUser` sets only the ban fields of the targeted user row. The fanworks and
comments tables are untouched (in particular every `isHidden` flag), `getFanwork` is
unchanged on every id, other user rows survive as they were, and the targeted row keeps
all its other fields. -/
theorem C8_ban_does_not_cascade (st : State) (uid : Nat) (d : BanData) :
    (banUser st uid d).2.fanworks = st.fanworks
  ∧ (banUser st uid d).2.comments = st.comments
  ∧ (∀ i, getFanwork (banUser st uid d).2 i = getFanwork st i)
  ∧ (∀ v ∈ st.users, v.id ≠ uid → v ∈ (banUser st uid d).2.users)
  ∧ (∀ v ∈ st.users, v.id = uid →
      { v with
          isBanned := true
          banReason := some d.banReason
          bannedBy := some d.bannedBy
          bannedAt := some d.bannedAt } ∈ (banUser st uid d).2.users) := by
  refine ⟨rfl, rfl, fun i => rfl, ?_, ?_⟩
  · intro v hv hne
    have hfix : banRow uid d v = v := by
      unfold banRow
      simp [hne]
    have hmem := List.mem_map_of_mem (banRow uid d) hv
    rw [hfix] at hmem
    exact hmem
  · intro v hv heq
    have hfix : banRow uid d v =
        { v with
            isBanned := true
            banReason := some d.banReason
            bannedBy := some d.bannedBy
            bannedAt := some d.bannedAt } := by
      unfold banRow
      simp [heq]
    have hmem := List.mem_map_of_mem (banRow uid d) hv
    rw [hfix] at hmem
    exact hmem

/-- A sample author (id 7). -/
def uAuthor : User :=
  { id := 7, email := "a@x.com", username := "a", passwordHash := "h", firstName := none,
    lastName := none, role := "user", isActive := true, isBanned := false, banReason := none,
    bannedBy := none, bannedAt := none, ageVerified := false, createdAt := 0, updatedAt := 0 }

/-- A sample unrelated regular user (id 2). -/
def uOther : User :=
  { id := 2, email := "b@x.com", username := "b", passwordHash := "h", firstName := none,
    lastName := none, role := "user", isActive := true, isBanned := false, banReason := none,
    bannedBy := none, bannedAt := none, ageVerified := false, createdAt := 0, updatedAt := 0 }

/-- A visible fanwork (id 1) authored by user 7. -/
def wSample : Fanwork :=
  { id := 1, title := "T", description := some "d", type := "artwork", contentUrl := none,
    textContent := none, rating := "teen", authorId := 7, isHidden := false,
    moderationReason := none, moderatedAt := none, moderatedBy := none, contentType := "fanart",
    isReported := false, reportCount := 0, createdAt := 10, updatedAt := 10 }

/-- A store with users 7 and 2 and the visible fanwork 1, for the C8 witness. -/
def banState : State :=
  { emptyState with users := [uAuthor, uOther], fanworks := [wSample] }

/-- The ban metadata used by the C8 witness. -/
def dBan : BanData :=
  { banReason := "spam", bannedBy := "9", bannedAt := 5 }

/-- Witness for C8 at a concrete input: banning user 7 leaves the fanworks table, the
read of fanwork 1 and the unrelated user 2 untouched. -/
theorem C8_ban_does_not_cascade_witness :
    (banUser banState 7 dBan).2.fanworks = banState.fanworks
  ∧ getFanwork (banUser banState 7 dBan).2 1 = getFanwork banState 1
  ∧ uOther ∈ (banUser banState 7 dBan).2.users := by
  have h := C8_ban_does_not_cascade banState 7 dBan
  exact ⟨h.1, h.2.2.1 1, h.2.2.2.1 uOther (by decide) (by decide)⟩

/-- C9: the role-gated middlewares evaluate their checks in the fixed source order
credential validity (token, then user existence and activity), then ban status, then
role or age verification, short-circuiting at the first failure; in particular a banned
user receives the 403 "Account banned" regardless of role, so a banned admin is blocked
before the role check. -/
theorem C9_access_checks_ordered (st : State) (cred : Option Nat) :
    (cred = none →
        requireModerator st cred = .unauthorized "Invalid or expired token"
      ∧ requireAdmin st cred = .unauthorized "Invalid or expired token"
      ∧ requireAgeVerification st cred = .unauthorized "Invalid or expired token")
  ∧ (∀ uid, cred = some uid → getUserById st uid = none →
        requireModerator st cred = .unauthorized "User not found or inactive"
      ∧ requireAdmin st cred = .unauthorized "User not found or inactive"
      ∧ requireAgeVerification st cred = .unauthorized "User not found or inactive")
  ∧ (∀ uid u, cred = some uid → getUserById st uid = some u → u.isActive = false →
        requireModerator st cred = .unauthorized "User not found or inactive"
      ∧ requireAdmin st cred = .unauthorized "User not found or inactive"
      ∧ requireAgeVerification st cred = .unauthorized "User not found or inactive")
  ∧ (∀ uid u, cred = some uid → getUserById st uid = some u → u.isActive = true →
        u.isBanned = true →
        requireModerator st cred = .forbidden "Account banned"
      ∧ requireAdmin st cred = .forbidden "Account banned"
      ∧ requireAgeVerification st cred = .forbidden "Account banned")
  ∧ (∀ uid u, cred = some uid → getUserById st uid = some u → u.isActive = true →
        u.isBanned = false →
        (u.role ≠ "moderator" → u.role ≠ "admin" →
            requireModerator st cred = .forbidden "Moderator access required")
      ∧ (u.role ≠ "admin" → requireAdmin st cred = .forbidden "Admin access required")
      ∧ (u.ageVerified = false →
            requireAgeVerification st cred = .forbidden "Age verification required for 18+ content")
      ∧ (u.role = "admin" → requireAdmin st cred = .ok u.id u.email u.username)) := by
  refine ⟨?_, ?_, ?_, ?_, ?_⟩
  · intro h
    subst h
    exact ⟨rfl, rfl, rfl⟩
  · intro uid hc hu
    subst hc
    simp [requireModerator, requireAdmin, requireAgeVerification, hu]
  · intro uid u hc hu hact
    subst hc
    simp [requireModerator, requireAdmin, requireAgeVerification, hu, hact]
  · intro uid u hc hu hact hban
    subst hc
    simp [requireModerator, requireAdmin, requireAgeVerification, hu, hact, hban]
  · intro uid u hc hu hact hban
    subst hc
    refine ⟨?_, ?_, ?_, ?_⟩
    · intro hmod hadm
      simp [requireModerator, hu, hact, hban, hmod, hadm]
    · intro hadm
      simp [requireAdmin, hu, hact, hban, hadm]
    · intro hage
      simp [requireAgeVerification, hu, hact, hban, hage]
    · intro hadm
      simp [requireAdmin, hu, hact, hban, hadm]

/-- A banned admin (id 3, role admin, active, banned). -/
def uBannedAdmin : User :=
  { id := 3, email := "c@x.com", username := "c", passwordHash := "h", firstName := none,
    lastName := none, role := "admin", isActive := true, isBanned := true,
    banReason := some "abuse", bannedBy := some "9", bannedAt := some 4, ageVerified := true,
    createdAt := 0, updatedAt := 0 }

/-- A store containing only the banned admin, for the C9 witness. -/
def authState : State :=
  { emptyState with users := [uBannedAdmin] }

/-- Witness for C9 at a concrete input: the banned admin is stopped with the ban 403 by
each middleware, before any role check could pass. -/
theorem C9_access_checks_ordered_witness :
    requireAdmin authState (some 3) = .forbidden "Account banned"
  ∧ requireModerator authState (some 3) = .forbidden "Account banned" := by
  have h := (C9_access_checks_ordered authState (some 3)).2.2.2.1 3 uBannedAdmin
    rfl (by decide) (by decide) (by decide)
  exact ⟨h.2.1, h.1⟩

/-- C3: once the status of a report is terminal (`resolved`, `dismissed` or `reviewed`),
the review operation fails with `InvalidTransition` and leaves the store, hence the
reviewer, timestamp and moderation-action fields of the report, unaltered; a review can succeed only
from a report whose current status is `pending` (a conditional update). The status check
lives in the spec-modelled route handler `reviewReport`, which drives the real
`updateReport` only in the pending case. -/
theorem C3_review_only_from_pending (st : State) (rid reviewerId : Nat)
    (newStatus action : String) (now : Nat) (r : Report)
    (hr : st.reports.find? (fun x => x.id == rid) = some r) :
    (r.status = "resolved" ∨ r.status = "dismissed" ∨ r.status = "reviewed" →
        reviewReport st rid reviewerId newStatus action now =
          (.error .invalidTransition, st))
  ∧ (∀ out st2, reviewReport st rid reviewerId newStatus action now = (.ok out, st2) →
        r.status = "pending") := by
  constructor
  · intro hterm
    unfold reviewReport
    rw [hr]
    have hne : (r.status == "pending") = false := by
      rcases hterm with h | h | h <;> simp [h]
    simp [hne]
  · intro out st2 hok
    by_cases hp : r.status = "pending"
    · exact hp
    · exfalso
      unfold reviewReport at hok
      rw [hr] at hok
      have hne : (r.status == "pending") = false := by
        simp [hp]
      simp [hne] at hok

/-- A report (id 4) already resolved, with its review stamps set. -/
def rResolved : Report :=
  { id := 4, reporterId := 2, fanworkId := some 1, commentId := none, userId := none,
    reason := "spam", description := none, status := "resolved", reviewedBy := some 9,
    reviewedAt := some 3, moderationAction := some "hidden", createdAt := 1 }

/-- A store containing only the resolved report, for the C3 witness. -/
def reportState : State :=
  { emptyState with reports := [rResolved] }

/-- Witness for C3 at a concrete input: reviewing the already-resolved report 4 fails
with `InvalidTransition` and returns the store unchanged. -/
theorem C3_review_only_from_pending_witness :
    reviewReport reportState 4 9 "dismissed" "none" 8 =
      (.error .invalidTransition, reportState) :=
  (C3_review_only_from_pending reportState 4 9 "dismissed" "none" 8 rResolved
    (by decide)).1 (Or.inl rfl)

/-- A hidden fanwork (id 1) authored by user 7, with its moderation stamps set. -/
def wHidden : Fanwork :=
  { id := 1, title := "T", description := some "d", type := "artwork", contentUrl := none,
    textContent := none, rating := "teen", authorId := 7, isHidden := true,
    moderationReason := some "tos", moderatedAt := some 5, moderatedBy := some 9,
    contentType := "fanart", isReported := false, reportCount := 0, createdAt := 10,
    updatedAt := 10 }

/-- A store whose only fanwork is hidden, with the author (7) and an unrelated regular
user (2) present. -/
def hiddenState : State :=
  { emptyState with users := [uAuthor, uOther], fanworks := [wHidden] }

/-- C4 (evaluation at the failing input): the fanwork is hidden, yet the default browse
returns it and the single read returns it, and the listing depends only on the fanworks
table, so no caller (owner, moderator or the unrelated user 2) is treated differently:
no read path consults `isHidden`. -/
theorem C4_hidden_fanwork_still_served :
    wHidden.isHidden = true
  ∧ getFanworks hiddenState {} = [wHidden]
  ∧ getFanwork hiddenState 1 = some wHidden
  ∧ (∀ st2 : State, st2.fanworks = hiddenState.fanworks →
      getFanworks st2 {} = getFanworks hiddenState {}) := by
  refine ⟨rfl, by decide, by decide, ?_⟩
  intro st2 h
  unfold getFanworks
  rw [h]

/-- C7 (counterexample): fanwork 1 is hidden, yet `toggleLike` for user 5 succeeds,
returns `true` and inserts the relation row — it does not fail with `NotFound` and it
does create a row, contradicting the claim at this input. -/
theorem C7_toggle_hidden_succeeds :
    (getFanwork hiddenState 1).map Fanwork.isHidden = some true
  ∧ (toggleLike hiddenState 5 1).1 = true
  ∧ (toggleLike hiddenState 5 1).2.likes = [{ userId := 5, fanworkId := 1 }]
  ∧ (toggleBookmark hiddenState 5 1).1 = true
  ∧ (toggleBookmark hiddenState 5 1).2.bookmarks = [{ userId := 5, fanworkId := 1 }] := by
  refine ⟨by decide, by decide, by decide, by decide, by decide⟩

/-- C7 amended: the toggle operations perform no existence or visibility check on the
target id. Even when the id refers to a hidden fanwork (and likewise when it refers to
no fanwork at all, the relation lists being unconstrained), a toggle with no prior row
inserts the `(U, I)` row and returns `true`; no `NotFound` path exists in
`toggleLike`/`toggleBookmark` or their route handlers. -/
theorem C7_amended_no_visibility_check (st : State) (u i : Nat) (w : Fanwork)
    (_hw : getFanwork st i = some w) (_hh : w.isHidden = true)
    (hnl : isLiked st u i = false) (hnb : isBookmarked st u i = false) :
    toggleLike st u i =
      (true, { st with likes := st.likes ++ [{ userId := u, fanworkId := i }] })
  ∧ toggleBookmark st u i =
      (true, { st with bookmarks := st.bookmarks ++ [{ userId := u, fanworkId := i }] }) := by
  constructor
  · unfold isLiked at hnl
    unfold toggleLike
    cases hf : st.likes.find? (likeMatches u i) with
    | some l => rw [hf] at hnl; simp at hnl
    | none => rfl
  · unfold isBookmarked at hnb
    unfold toggleBookmark
    cases hf : st.bookmarks.find? (bookmarkMatches u i) with
    | some b => rw [hf] at hnb; simp at hnb
    | none => rfl

/-- Witness for the amended C7 at a concrete input: the hidden fanwork 1 receives the
like row of user 5. -/
theorem C7_amended_no_visibility_check_witness :
    toggleLike hiddenState 5 1 =
      (true, { hiddenState with likes := [{ userId := 5, fanworkId := 1 }] }) := by
  have h := C7_amended_no_visibility_check hiddenState 5 1 wHidden
    (by decide) (by decide) (by decide) (by decide)
  simpa using h.1

/-- An artwork (id 2) whose description contains the word "zap", carrying no tag. -/
def wZap : Fanwork :=
  { id := 2, title := "Quiet", description := some "A Zap Story", type := "artwork",
    contentUrl := none, textContent := none, rating := "teen", authorId := 7,
    isHidden := false, moderationReason := none, moderatedAt := none, moderatedBy := none,
    contentType := "fanart", isReported := false, reportCount := 0, createdAt := 20,
    updatedAt := 20 }

/-- A store with the tag "fluff" on record, the fanwork 2, and no tag link at all. -/
def searchState : State :=
  { emptyState with
      users := [uAuthor]
      fanworks := [wZap]
      tags := [{ id := 1, name := "fluff", createdAt := 0 }] }

/-- C6 (counterexample): the store holds no tag link, yet filtering by tag membership
in "fluff" still returns fanwork 2 (the tags filter is ignored); and filtering by
type "comic" together with the search "zap" also returns fanwork 2 although its type is
"artwork" — the unparenthesised search fragment is OR-combined under SQL precedence, so
a description match bypasses the type filter, contradicting AND semantics across the
supplied filter dimensions. -/
theorem C6_filters_counterexample :
    searchState.fanworkTags = []
  ∧ getFanworks searchState { tags := some ["fluff"] } = [wZap]
  ∧ wZap.type = "artwork"
  ∧ getFanworks searchState { type := some ["comic"], search := some "zap" } = [wZap] := by
  refine ⟨rfl, by decide, rfl, by decide⟩

/-- C6 amended: `getFanworks` returns exactly the fanworks satisfying its generated
WHERE clause `fanworkWhere` — in which type, rating and author combine with AND,
multi-valued filters are OR-of-membership, the tags filter is ignored, and a present
search makes the clause parse as (type AND rating AND title-match) OR
(description-match AND author) — ordered by creation time descending and paginated by
OFFSET and LIMIT (LIMIT defaulting to 20 when absent or 0). Soundness and the ordering
hold unconditionally; completeness holds whenever pagination does not truncate; and the
result reads none of the tag, user or relation tables. -/
theorem C6_amended_filter_semantics (st : State) (f : FanworkFilters) :
    (∀ w ∈ getFanworks st f, w ∈ st.fanworks ∧ fanworkWhere f w = true)
  ∧ List.Pairwise byCreatedAtDesc (getFanworks st f)
  ∧ (fanworksOffset f = 0 →
      (st.fanworks.filter (fanworkWhere f)).length ≤ fanworksLimit f →
      ∀ w ∈ st.fanworks, fanworkWhere f w = true → w ∈ getFanworks st f)
  ∧ (∀ us tg ftg lk cm bk rp,
      getFanworks
        { users := us, fanworks := st.fanworks, tags := tg, fanworkTags := ftg,
          likes := lk, comments := cm, bookmarks := bk, reports := rp } f =
      getFanworks st f) := by
  refine ⟨?_, ?_, ?_, ?_⟩
  · intro w hw
    have hsub : (((List.insertionSort byCreatedAtDesc
        (st.fanworks.filter (fanworkWhere f))).drop (fanworksOffset f)).take
          (fanworksLimit f)).Sublist
        (List.insertionSort byCreatedAtDesc (st.fanworks.filter (fanworkWhere f))) :=
      (List.take_sublist _ _).trans (List.drop_sublist _ _)
    have hmem : w ∈ List.insertionSort byCreatedAtDesc (st.fanworks.filter (fanworkWhere f)) :=
      hsub.subset hw
    have hmem2 : w ∈ st.fanworks.filter (fanworkWhere f) :=
      (List.mem_insertionSort byCreatedAtDesc).mp hmem
    exact ⟨(List.mem_filter.mp hmem2).1, (List.mem_filter.mp hmem2).2⟩
  · have hsorted : List.Pairwise byCreatedAtDesc
        (List.insertionSort byCreatedAtDesc (st.fanworks.filter (fanworkWhere f))) :=
      List.sorted_insertionSort byCreatedAtDesc _
    have hsub : (((List.insertionSort byCreatedAtDesc
        (st.fanworks.filter (fanworkWhere f))).drop (fanworksOffset f)).take
          (fanworksLimit f)).Sublist
        (List.insertionSort byCreatedAtDesc (st.fanworks.filter (fanworkWhere f))) :=
      (List.take_sublist _ _).trans (List.drop_sublist _ _)
    exact List.Pairwise.sublist hsub hsorted
  · intro hoff hlen w hw hmatch
    unfold getFanworks
    rw [hoff, List.drop_zero]
    have hlen2 : (List.insertionSort byCreatedAtDesc
        (st.fanworks.filter (fanworkWhere f))).length ≤ fanworksLimit f := by
      rw [(List.perm_insertionSort byCreatedAtDesc _).length_eq]
      exact hlen
    rw [List.take_of_length_le hlen2]
    exact (List.mem_insertionSort byCreatedAtDesc).mpr
      (List.mem_filter.mpr ⟨hw, hmatch⟩)
  · intro us tg ftg lk cm bk rp
    rfl

/-- Witness for the amended C6 at a concrete input: with no pagination truncation, the
matching fanwork 2 is a member of the listing for the type "comic" plus search "zap"
filter, and the listing result satisfies the WHERE clause characterisation. -/
theorem C6_amended_filter_semantics_witness :
    wZap ∈ getFanworks searchState { type := some ["comic"], search := some "zap" }
  ∧ (wZap ∈ searchState.fanworks ∧
      fanworkWhere { type := some ["comic"], search := some "zap" } wZap = true) := by
  have h := C6_amended_filter_semantics searchState
    { type := some ["comic"], search := some "zap" }
  have hmem := h.2.2.1 (by decide) (by decide) wZap (by decide) (by decide)
  exact ⟨hmem, h.1 wZap hmem⟩
